import Mathlib

/-!
The authenticated-request envelope of package eskizuz.

A shallow embedding of `main.go` (package `eskizuz`): the transport envelope
`request`, the header builder `headerAuth`, the login `GetToken` and the four
session operations `Send`, `GetUserLimit`, `GetMe`, `RefreshToken`.

Go strings are byte sequences.  Calls into the Go standard library whose
result depends on the outside world or on a large library (`json.Marshal`,
`json.Unmarshal`, `http.NewRequest`, `client.Do`) are fields of an
environment `Env`; every general theorem quantifies over all environments.
Run-time panics are values of `Fault`.  The logging sink is not modelled:
its calls return nothing the code reads, so the helper `e(w, err, msg)` is
the test `err != nil`, written as a match on the error.
-/

set_option maxRecDepth 8000

namespace Eskizuz

/-! ## Strings -/

/-- One byte of a Go string. -/
abbrev Byte := Fin 256

/-- A Go `string`: an immutable sequence of bytes, not necessarily UTF-8. -/
abbrev GoString := List Byte

/-- Truncation of a natural number to a byte. -/
def byte (n : Nat) : Byte := ⟨n % 256, Nat.mod_lt _ (by decide)⟩

/-- UTF-8 encoding of the code point `r`, as done by the conversion
`string(r)` and by `utf8.AppendRune`: surrogates and values above U+10FFFF
become U+FFFD. -/
def encodeRune (r : Nat) : GoString :=
  if r < 0x80 then [byte r]
  else if r < 0x800 then [byte (0xC0 + r / 64), byte (0x80 + r % 64)]
  else if (0xD800 ≤ r ∧ r < 0xE000) ∨ 0x10FFFF < r then [byte 0xEF, byte 0xBF, byte 0xBD]
  else if r < 0x10000 then
    [byte (0xE0 + r / 4096), byte (0x80 + r / 64 % 64), byte (0x80 + r % 64)]
  else
    [byte (0xF0 + r / 262144), byte (0x80 + r / 4096 % 64), byte (0x80 + r / 64 % 64),
      byte (0x80 + r % 64)]

/-- The bytes of a string literal of the source (UTF-8). -/
def str (s : String) : GoString :=
  s.toList.flatMap (fun c => encodeRune c.toNat)

/-- Go's `unicode.ToUpper` on the code points below U+0100, the only ones the
conversion `string(b)` of a byte `b` can produce. -/
def toUpperRune (r : Nat) : Nat :=
  if 0x61 ≤ r ∧ r ≤ 0x7A then r - 0x20
  else if r = 0xB5 then 0x39C
  else if 0xE0 ≤ r ∧ r ≤ 0xF6 then r - 0x20
  else if 0xF8 ≤ r ∧ r ≤ 0xFE then r - 0x20
  else if r = 0xFF then 0x178
  else r

/-- Value of `strings.ToUpper(string(b))` for a byte `b`. -/
def ToUpperByte (b : Byte) : GoString :=
  encodeRune (toUpperRune b.val)

/-! ## Data model -/

instance instDecidableEqExcept {ε α : Type} [DecidableEq ε] [DecidableEq α] :
    DecidableEq (Except ε α)
  | .ok a, .ok b => if h : a = b then isTrue (by rw [h]) else isFalse (fun e => h (by cases e; rfl))
  | .error a, .error b =>
    if h : a = b then isTrue (by rw [h]) else isFalse (fun e => h (by cases e; rfl))
  | .ok _, .error _ => isFalse (fun e => by cases e)
  | .error _, .ok _ => isFalse (fun e => by cases e)

/-- Run-time panics the code can raise. -/
inductive Fault where
  | indexOutOfRange
  | interfaceConversion
  | nilDereference
  deriving DecidableEq, Repr

structure Auth where
  Email : GoString
  Password : GoString
  deriving DecidableEq, Repr

structure SMS where
  MobilePhone : GoString
  Message : GoString
  From : GoString
  CallbackURL : GoString
  deriving DecidableEq, Repr

/-- The logger `logt.NewLog` builds; only its presence is read. -/
structure Log where
  NameSpace : GoString
  deriving DecidableEq, Repr

/-- The session `Eskiz`; the field `Type` of the source is `Type_` here. -/
structure Eskiz where
  Token : GoString
  Type_ : GoString
  log : Option Log
  Message : GoString
  Error : GoString
  deriving DecidableEq, Repr

/-- The internal outcome record `data`; `err = none` is Go's nil error and
`some t` an error whose `Error()` text is `t`. -/
structure data where
  err : Option GoString
  message : GoString
  code : Int
  dataMarshal : GoString
  deriving DecidableEq, Repr

/-- The dynamic values `request` receives as `body interface{}`: the nil
interface, or a `*Auth` / `*SMS` pointer (which may itself be nil). -/
inductive Body where
  | nil
  | auth (p : Option Auth)
  | sms (p : Option SMS)
  deriving DecidableEq, Repr

/-- The values `json.Unmarshal` stores in an `interface{}`. -/
inductive Value where
  | null
  | bool (b : Bool)
  | number (lit : GoString)
  | string (s : GoString)
  | array (xs : List Value)
  | object (m : List (GoString × Value))

/-- A decoded `map[string]interface{}`. -/
abbrev JMap := List (GoString × Value)

/-- Map indexing `m[k]`: the nil interface when the key is absent. -/
def index (m : JMap) (k : GoString) : Value :=
  match m.lookup k with
  | some v => v
  | none => .null

/-- The type assertion `v.(map[string]interface{})`. -/
def assertMap : Value → Except Fault JMap
  | .object m => .ok m
  | _ => .error .interfaceConversion

/-- The type assertion `v.(string)`. -/
def assertString : Value → Except Fault GoString
  | .string s => .ok s
  | _ => .error .interfaceConversion

/-! ## HTTP requests -/

/-- The token bytes of `net/textproto` (`validHeaderFieldByte`). -/
def validHeaderFieldByte (c : Byte) : Bool :=
  (0x30 ≤ c.val && c.val ≤ 0x39) || (0x41 ≤ c.val && c.val ≤ 0x5A) ||
  (0x61 ≤ c.val && c.val ≤ 0x7A) ||
  c.val ∈ [0x21, 0x23, 0x24, 0x25, 0x26, 0x27, 0x2A, 0x2B, 0x2D, 0x2E, 0x5E, 0x5F, 0x60, 0x7C, 0x7E]

/-- The rewriting loop of `canonicalMIMEHeaderKey`: upper-case the first
letter and each letter after a hyphen, lower-case the others. -/
def canonLoop : Bool → GoString → GoString
  | _, [] => []
  | upper, c :: cs =>
    let c1 : Byte :=
      if upper && (0x61 ≤ c.val && c.val ≤ 0x7A) then byte (c.val - 0x20)
      else if !upper && (0x41 ≤ c.val && c.val ≤ 0x5A) then byte (c.val + 0x20)
      else c
    c1 :: canonLoop (c1.val == 0x2D) cs

/-- Go's `textproto.CanonicalMIMEHeaderKey`: keys with a byte that is not a token
byte are left as they are. -/
def CanonicalMIMEHeaderKey (s : GoString) : GoString :=
  if s.all validHeaderFieldByte then canonLoop true s else s

/-- An `http.Header`, one value per canonical key. -/
abbrev Header := List (GoString × GoString)

/-- Go's `Header.Set`: the value replaces any under the same canonical key. -/
def Header.Set (h : Header) (key value : GoString) : Header :=
  (CanonicalMIMEHeaderKey key, value) ::
    h.filter (fun p => p.1 != CanonicalMIMEHeaderKey key)

/-- Go's `Header.Get`, with `none` for an absent key. -/
def Header.Get (h : Header) (key : GoString) : Option GoString :=
  h.lookup (CanonicalMIMEHeaderKey key)

/-- The `*http.Request` handed to `client.Do`. -/
structure Request where
  Method : GoString
  URL : GoString
  Header : Header
  Body : GoString
  deriving DecidableEq, Repr

/-- The library calls of `request` and of its callers. -/
structure Env where
  /-- Result of `json.Marshal(&body)`. -/
  Marshal : Body → Except GoString GoString
  /-- The error of `http.NewRequest(method, url, _)`, `none` when it builds. -/
  NewRequest : GoString → GoString → Option GoString
  /-- Result of `client.Do(req)` followed by reading the response body: a
  transport error, or the status code and the body text. -/
  Do : Request → Except GoString (Int × GoString)
  /-- Result of `json.Unmarshal([]byte(s), &m)` for an empty map `m`. -/
  Unmarshal : GoString → Except GoString JMap

def baseURL : GoString := str "https://notify.eskiz.uz/api"
def smsURL : GoString := str "/message/sms/send"
def userURL : GoString := str "/auth/user"
def loginURL : GoString := str "/auth/login"
def refreshURL : GoString := str "/auth/refresh"
def limitURL : GoString := str "/user/get-limit"

/-- The request that `request` has built when it reaches `client.Do`
(lines 225 to 249): method, URL and marshalled body from `http.NewRequest`,
the caller's header when its key is not empty, and `Content-Type` when the
body is not the nil interface. -/
def outgoing (url method js : GoString) (body : Body) (keyHeader valueHeader : GoString) :
    Request :=
  let req : Request := { Method := method, URL := url, Header := [], Body := js }
  let req : Request :=
    if keyHeader ≠ [] then { req with Header := req.Header.Set keyHeader valueHeader }
    else req
  if body ≠ Body.nil then
    { req with Header := req.Header.Set (str "Content-Type") (str "application/json") }
  else req

/-- The function `request`: the requests it hands to `client.Do`, and the
outcome record it returns. -/
def request (env : Env) (url method : GoString) (body : Body)
    (keyHeader valueHeader : GoString) : List Request × data :=
  match env.Marshal body with
  | .error err =>
    ([], { err := some err, message := str "marshaling body", code := -1, dataMarshal := [] })
  | .ok js =>
    match env.NewRequest method url with
    | some err =>
      ([], { err := some err, message := str "new request", dataMarshal := [], code := -1 })
    | none =>
      let req := outgoing url method js body keyHeader valueHeader
      match env.Do req with
      | .error err =>
        ([req], { err := some err, message := str "doing request", dataMarshal := [], code := -1 })
      | .ok (status, s) =>
        ([req],
          if status = 400 then
            { err := some (str "bad request"), message := str "bad request",
              dataMarshal := s, code := 400 }
          else if status = 401 then
            { err := some (str "unauthorized"), message := str "unauthorized",
              dataMarshal := s, code := 401 }
          else
            { err := none, message := str "succes", code := 200, dataMarshal := s })

/-- The function `headerAuth`: `_type[0]` panics on the empty string. -/
def headerAuth (token _type : GoString) : Except Fault (GoString × GoString) :=
  match _type with
  | [] => .error .indexOutOfRange
  | b :: rest => .ok (str "Authorization", ToUpperByte b ++ rest ++ str " " ++ token)

/-- What running an operation leaves behind: the requests handed to
`client.Do`, and either the returned values or a panic. -/
structure Ran (α : Type) where
  sent : List Request
  result : Except Fault α
  deriving DecidableEq

/-- The method `Send`; `none` in the first returned component is the nil map. -/
def Send (env : Env) (eskiz : Eskiz) (sms : Option SMS) : Ran (Option JMap × Option GoString) :=
  match eskiz.log with
  | none => ⟨[], .error .nilDereference⟩
  | some _ =>
    match headerAuth eskiz.Token eskiz.Type_ with
    | .error f => ⟨[], .error f⟩
    | .ok (key, value) =>
      let req := request env (baseURL ++ smsURL) (str "POST") (.sms sms) key value
      match req.2.err with
      | some err => ⟨req.1, .ok (none, some err)⟩
      | none =>
        match env.Unmarshal req.2.dataMarshal with
        | .error err => ⟨req.1, .ok (none, some err)⟩
        | .ok response => ⟨req.1, .ok (some response, none)⟩

/-- The method `GetUserLimit`. -/
def GetUserLimit (env : Env) (eskiz : Eskiz) : Ran (Option JMap × Option GoString) :=
  match eskiz.log with
  | none => ⟨[], .error .nilDereference⟩
  | some _ =>
    match headerAuth eskiz.Token eskiz.Type_ with
    | .error f => ⟨[], .error f⟩
    | .ok (key, value) =>
      let req := request env (baseURL ++ limitURL) (str "GET") .nil key value
      match req.2.err with
      | some err => ⟨req.1, .ok (none, some err)⟩
      | none =>
        match env.Unmarshal req.2.dataMarshal with
        | .error err => ⟨req.1, .ok (none, some err)⟩
        | .ok response => ⟨req.1, .ok (some response, none)⟩

/-- The method `GetMe`. -/
def GetMe (env : Env) (eskiz : Eskiz) : Ran (Option JMap × Option GoString) :=
  match eskiz.log with
  | none => ⟨[], .error .nilDereference⟩
  | some _ =>
    match headerAuth eskiz.Token eskiz.Type_ with
    | .error f => ⟨[], .error f⟩
    | .ok (key, value) =>
      let req := request env (baseURL ++ userURL) (str "GET") .nil key value
      match req.2.err with
      | some err => ⟨req.1, .ok (none, some err)⟩
      | none =>
        match env.Unmarshal req.2.dataMarshal with
        | .error err => ⟨req.1, .ok (none, some err)⟩
        | .ok response => ⟨req.1, .ok (some response, none)⟩

/-- The method `RefreshToken`: the session as the call leaves it, and the
run.  The three assignments happen one after the other, each after its
right-hand side has been evaluated. -/
def RefreshToken (env : Env) (eskiz : Eskiz) : Eskiz × Ran (Option GoString) :=
  match eskiz.log with
  | none => (eskiz, ⟨[], .error .nilDereference⟩)
  | some _ =>
    match headerAuth eskiz.Token eskiz.Type_ with
    | .error f => (eskiz, ⟨[], .error f⟩)
    | .ok (key, value) =>
      let req := request env (baseURL ++ refreshURL) (str "PATCH") .nil key value
      match req.2.err with
      | some err => (eskiz, ⟨req.1, .ok (some err)⟩)
      | none =>
        match env.Unmarshal req.2.dataMarshal with
        | .error err => (eskiz, ⟨req.1, .ok (some err)⟩)
        | .ok response =>
          match (assertMap (index response (str "data"))).bind
              (fun m => assertString (index m (str "token"))) with
          | .error f => (eskiz, ⟨req.1, .error f⟩)
          | .ok token =>
            let eskiz1 : Eskiz := { eskiz with Token := token }
            match assertString (index response (str "token_type")) with
            | .error f => (eskiz1, ⟨req.1, .error f⟩)
            | .ok ty =>
              let eskiz2 : Eskiz := { eskiz1 with Type_ := ty }
              match assertString (index response (str "message")) with
              | .error f => (eskiz2, ⟨req.1, .error f⟩)
              | .ok msg => ({ eskiz2 with Message := msg }, ⟨req.1, .ok none⟩)

/-- The function `GetToken`: the returned pair `(*Eskiz, error)`. -/
def GetToken (env : Env) (auth : Option Auth) : Ran (Eskiz × Option GoString) :=
  let l : Log := { NameSpace := str "eskiz" }
  let req := request env (baseURL ++ loginURL) (str "POST") (.auth auth) [] []
  match req.2.err with
  | some err =>
    ⟨req.1, .ok ({ Token := [], Type_ := [], log := some l, Message := req.2.message,
                   Error := err }, some err)⟩
  | none =>
    match env.Unmarshal req.2.dataMarshal with
    | .error err =>
      ⟨req.1, .ok ({ Token := [], Type_ := [], log := some l, Message := req.2.message,
                     Error := err }, some err)⟩
    | .ok response =>
      match (assertMap (index response (str "data"))).bind
          (fun m => assertString (index m (str "token"))) with
      | .error f => ⟨req.1, .error f⟩
      | .ok token =>
        match assertString (index response (str "token_type")) with
        | .error f => ⟨req.1, .error f⟩
        | .ok ty =>
          match assertString (index response (str "message")) with
          | .error f => ⟨req.1, .error f⟩
          | .ok msg =>
            ⟨req.1, .ok ({ Token := token, Type_ := ty, log := some l, Message := msg,
                           Error := [] }, none)⟩

/-! ## The invariant of the specification -/

/-- The invariant of the specification: the token and the token type of a
session are both empty or both non-empty. -/
def tokenTypeInvariant (s : Eskiz) : Prop :=
  (s.Token = [] ∧ s.Type_ = []) ∨ (s.Token ≠ [] ∧ s.Type_ ≠ [])

/-! ## Sample environments

Concrete backends for evaluating the code: the response is fixed, and
`json.Unmarshal` is given by the table of the texts that occur. -/

/-- A decoder that knows the listed texts and rejects every other one; the
error text stands for the syntax error of the decoder. -/
def tableUnmarshal (table : List (GoString × JMap)) (s : GoString) : Except GoString JMap :=
  match table.lookup s with
  | some m => .ok m
  | none => .error (str "invalid character")

/-- Go's `json.Marshal(&body)` on the bodies used below, whose strings need
no escaping. -/
def plainMarshal : Body → Except GoString GoString
  | .nil => .ok (str "null")
  | .auth none => .ok (str "null")
  | .sms none => .ok (str "null")
  | .auth (some a) =>
    .ok (str "\x7b\"email\":\"" ++ a.Email ++ str "\",\"password\":\"" ++ a.Password ++
      str "\"\x7d")
  | .sms (some m) =>
    .ok (str "\x7b\"mobile_phone\":\"" ++ m.MobilePhone ++ str "\",\"message\":\"" ++
      m.Message ++ str "\",\"from\":\"" ++ m.From ++ str "\",\"callback_url\":\"" ++
      m.CallbackURL ++ str "\"\x7d")

/-- A backend that answers every request with `status` and `body`. -/
def answering (status : Int) (body : GoString) (table : List (GoString × JMap)) : Env :=
  { Marshal := plainMarshal
    NewRequest := fun _ _ => none
    Do := fun _ => .ok (status, body)
    Unmarshal := tableUnmarshal table }

/-- A backend that cannot be reached. -/
def unreachable : Env :=
  { Marshal := plainMarshal
    NewRequest := fun _ _ => none
    Do := fun _ => .error (str "dial tcp: i/o timeout")
    Unmarshal := tableUnmarshal [] }

/-- The login body of the end-to-end scenario. -/
def loginBody : GoString :=
  str "\x7b\"data\":\x7b\"token\":\"T1\"\x7d,\"token_type\":\"bearer\",\"message\":\"ok\"\x7d"

/-- The decoding of `loginBody`. -/
def loginMap : JMap :=
  [(str "data", .object [(str "token", .string (str "T1"))]),
   (str "token_type", .string (str "bearer")),
   (str "message", .string (str "ok"))]

def sampleAuth : Auth := { Email := str "a@b.com", Password := str "p" }

def sampleSMS : SMS :=
  { MobilePhone := str "998771234567", Message := str "hi", From := str "X", CallbackURL := [] }

/-- The session a successful login of the scenario returns. -/
def sampleSession : Eskiz :=
  { Token := str "T1", Type_ := str "bearer", log := some { NameSpace := str "eskiz" },
    Message := str "ok", Error := [] }

/-- The session `GetToken` returns when the login fails with status 401. -/
def failedSession : Eskiz :=
  { Token := [], Type_ := [], log := some { NameSpace := str "eskiz" },
    Message := str "unauthorized", Error := str "unauthorized" }

/-- A well-formed answer whose token is the empty string. -/
def emptyTokenBody : GoString :=
  str "\x7b\"data\":\x7b\"token\":\"\"\x7d,\"token_type\":\"bearer\",\"message\":\"ok\"\x7d"

/-- The decoding of `emptyTokenBody`. -/
def emptyTokenMap : JMap :=
  [(str "data", .object [(str "token", .string [])]),
   (str "token_type", .string (str "bearer")),
   (str "message", .string (str "ok"))]

/-- An answer with a new token and a message but no "token_type". -/
def noTypeBody : GoString :=
  str "\x7b\"data\":\x7b\"token\":\"NEW\"\x7d,\"message\":\"ok\"\x7d"

/-- The decoding of `noTypeBody`. -/
def noTypeMap : JMap :=
  [(str "data", .object [(str "token", .string (str "NEW"))]),
   (str "message", .string (str "ok"))]

/-- The request `Send` hands to `client.Do` in the end-to-end scenario. -/
def scenarioSend : Request :=
  { Method := str "POST"
    URL := str "https://notify.eskiz.uz/api/message/sms/send"
    Header := [(str "Content-Type", str "application/json"),
               (str "Authorization", str "Bearer T1")]
    Body := str "\x7b\"mobile_phone\":\"998771234567\",\"message\":\"hi\",\"from\":\"X\",\"callback_url\":\"\"\x7d" }

/-- The request `GetToken` hands to `client.Do` for `sampleAuth`. -/
def loginRequest : Request :=
  { Method := str "POST"
    URL := str "https://notify.eskiz.uz/api/auth/login"
    Header := [(str "Content-Type", str "application/json")]
    Body := str "\x7b\"email\":\"a@b.com\",\"password\":\"p\"\x7d" }

/-- The request `GetMe` hands to `client.Do` in the end-to-end scenario. -/
def scenarioGetMe : Request :=
  { Method := str "GET"
    URL := str "https://notify.eskiz.uz/api/auth/user"
    Header := [(str "Authorization", str "Bearer T1")]
    Body := str "null" }

/-! ## The transport envelope -/

/-- Whatever `request` sends is the one request `outgoing` describes, and it
is sent exactly when marshalling and `http.NewRequest` succeed. -/
theorem request_sent (env : Env) (url method : GoString) (body : Body)
    (keyHeader valueHeader : GoString) (w : Request)
    (hsent : (request env url method body keyHeader valueHeader).1 = [w]) :
    ∃ js, env.Marshal body = .ok js ∧ env.NewRequest method url = none ∧
      w = outgoing url method js body keyHeader valueHeader := by
  unfold request at hsent
  cases hm : env.Marshal body with
  | error e => simp [hm] at hsent
  | ok js =>
    cases hn : env.NewRequest method url with
    | some e => simp [hm, hn] at hsent
    | none =>
      refine ⟨js, rfl, rfl, ?_⟩
      simp only [hm, hn] at hsent
      split at hsent <;> simp at hsent <;> exact hsent.symm

/-- At most one request leaves `request`. -/
theorem request_sent_cases (env : Env) (url method : GoString) (body : Body)
    (keyHeader valueHeader : GoString) :
    (request env url method body keyHeader valueHeader).1 = [] ∨
      ∃ w, (request env url method body keyHeader valueHeader).1 = [w] := by
  unfold request
  cases env.Marshal body with
  | error e => simp
  | ok js =>
    cases env.NewRequest method url with
    | some e => simp
    | none =>
      simp only
      split <;> simp

/-- The outcome `request` builds from an answer of the backend: the `switch`
on the status code, written out. -/
theorem request_answered (env : Env) (url method : GoString) (body : Body)
    (keyHeader valueHeader : GoString) (w : Request) (status : Int) (s : GoString)
    (hsent : (request env url method body keyHeader valueHeader).1 = [w])
    (hdo : env.Do w = .ok (status, s)) :
    (request env url method body keyHeader valueHeader).2 =
      if status = 400 then
        { err := some (str "bad request"), message := str "bad request",
          dataMarshal := s, code := 400 }
      else if status = 401 then
        { err := some (str "unauthorized"), message := str "unauthorized",
          dataMarshal := s, code := 401 }
      else
        { err := none, message := str "succes", code := 200, dataMarshal := s } := by
  obtain ⟨js, hm, hn, hw⟩ := request_sent env url method body keyHeader valueHeader w hsent
  unfold request
  simp only [hm, hn]
  rw [← hw, hdo]

/-- A transport failure becomes the outcome "doing request" carrying the
transport error. -/
theorem request_transport_failure (env : Env) (url method : GoString) (body : Body)
    (keyHeader valueHeader : GoString) (w : Request) (e : GoString)
    (hsent : (request env url method body keyHeader valueHeader).1 = [w])
    (hdo : env.Do w = .error e) :
    (request env url method body keyHeader valueHeader).2 =
      { err := some e, message := str "doing request", dataMarshal := [], code := -1 } := by
  obtain ⟨js, hm, hn, hw⟩ := request_sent env url method body keyHeader valueHeader w hsent
  unfold request
  simp only [hm, hn]
  rw [← hw, hdo]

/-- Every answer with a status other than 400 and 401 is an outcome with a
nil error, code 200, the raw text as payload and the message "succes". -/
theorem request_other_status (env : Env) (url method : GoString) (body : Body)
    (keyHeader valueHeader : GoString) (w : Request) (status : Int) (s : GoString)
    (hsent : (request env url method body keyHeader valueHeader).1 = [w])
    (hdo : env.Do w = .ok (status, s)) (h400 : status ≠ 400) (h401 : status ≠ 401) :
    (request env url method body keyHeader valueHeader).2 =
      { err := none, message := str "succes", code := 200, dataMarshal := s } := by
  rw [request_answered env url method body keyHeader valueHeader w status s hsent hdo]
  simp [h400, h401]

/-- C1, evaluated on a login answered with status 200: the outcome has a nil
error, code 200 and the raw text as payload, and its message is the literal
"succes" of the source, which is not the text "success". -/
theorem request_success_message_misspelt :
    (request (answering 200 loginBody []) (baseURL ++ loginURL) (str "POST")
        (.auth (some sampleAuth)) [] []).2 =
      { err := none, message := str "succes", code := 200, dataMarshal := loginBody } ∧
    (request (answering 200 loginBody []) (baseURL ++ loginURL) (str "POST")
        (.auth (some sampleAuth)) [] []).2.message ≠ str "success" := by
  decide

/-- C2: when the backend answers the request with status 400, `request`
returns the error "bad request", message "bad request", code 400 and the raw
response text as payload; with status 401 it returns the error and message
"unauthorized", code 401 and the raw response text. -/
theorem request_status_400_401 (env : Env) (url method : GoString) (body : Body)
    (keyHeader valueHeader : GoString) (w : Request) (s : GoString)
    (hsent : (request env url method body keyHeader valueHeader).1 = [w]) :
    (env.Do w = .ok (400, s) →
      (request env url method body keyHeader valueHeader).2 =
        { err := some (str "bad request"), message := str "bad request", code := 400,
          dataMarshal := s }) ∧
    (env.Do w = .ok (401, s) →
      (request env url method body keyHeader valueHeader).2 =
        { err := some (str "unauthorized"), message := str "unauthorized", code := 401,
          dataMarshal := s }) := by
  constructor
  · intro hdo
    rw [request_answered env url method body keyHeader valueHeader w 400 s hsent hdo]
    rfl
  · intro hdo
    rw [request_answered env url method body keyHeader valueHeader w 401 s hsent hdo]
    rfl

/-- C2 at a send answered with 400 and at a profile query answered with 401. -/
theorem request_status_400_401_witness :
    (request (answering 400 (str "no") []) (baseURL ++ smsURL) (str "POST")
        (.sms (some sampleSMS)) (str "Authorization") (str "Bearer T1")).2 =
      { err := some (str "bad request"), message := str "bad request", code := 400,
        dataMarshal := str "no" } ∧
    (request (answering 401 (str "expired") []) (baseURL ++ userURL) (str "GET")
        .nil (str "Authorization") (str "Bearer T1")).2 =
      { err := some (str "unauthorized"), message := str "unauthorized", code := 401,
        dataMarshal := str "expired" } :=
  ⟨(request_status_400_401 (answering 400 (str "no") []) (baseURL ++ smsURL) (str "POST")
      (.sms (some sampleSMS)) (str "Authorization") (str "Bearer T1")
      (outgoing (baseURL ++ smsURL) (str "POST")
        (str "\x7b\"mobile_phone\":\"998771234567\",\"message\":\"hi\",\"from\":\"X\",\"callback_url\":\"\"\x7d")
        (.sms (some sampleSMS)) (str "Authorization") (str "Bearer T1"))
      (str "no") (by decide)).1 (by decide),
   (request_status_400_401 (answering 401 (str "expired") []) (baseURL ++ userURL) (str "GET")
      .nil (str "Authorization") (str "Bearer T1")
      (outgoing (baseURL ++ userURL) (str "GET") (str "null") .nil (str "Authorization")
        (str "Bearer T1"))
      (str "expired") (by decide)).2 (by decide)⟩

/-! ## The authorization header -/

/-- For a token type that starts with an ASCII byte, `headerAuth` returns
the key "Authorization" and the type with that byte upper-cased when it is a
lower-case letter, one space, and the token. -/
theorem headerAuth_ascii (token rest : GoString) (b : Byte) (hb : b.val < 0x80) :
    headerAuth token (b :: rest) =
      .ok (str "Authorization",
        (if 0x61 ≤ b.val ∧ b.val ≤ 0x7A then byte (b.val - 0x20) else b) :: rest ++
          [byte 0x20] ++ token) := by
  have hsp : str " " = [byte 0x20] := by decide
  have hup : ToUpperByte b =
      [if 0x61 ≤ b.val ∧ b.val ≤ 0x7A then byte (b.val - 0x20) else b] := by
    unfold ToUpperByte toUpperRune encodeRune
    by_cases hl : 0x61 ≤ b.val ∧ b.val ≤ 0x7A
    · have h1 : b.val - 0x20 < 0x80 := by omega
      simp [hl, h1]
    · have h2 : ¬ b.val = 0xB5 := by omega
      have h3 : ¬ (0xE0 ≤ b.val ∧ b.val ≤ 0xF6) := by omega
      have h4 : ¬ (0xF8 ≤ b.val ∧ b.val ≤ 0xFE) := by omega
      have h5 : ¬ b.val = 0xFF := by omega
      have h6 : byte b.val = b := by
        apply Fin.ext
        simp only [byte]
        omega
      simp only [hl, h2, h3, h4, h5, if_false, hb, if_true, h6]
  simp only [headerAuth, hup, hsp, List.singleton_append, List.cons_append, List.append_assoc,
    List.nil_append]

/-- The example of the specification: type "bearer" and token "T1". -/
theorem headerAuth_bearer :
    headerAuth (str "T1") (str "bearer") = .ok (str "Authorization", str "Bearer T1") := by
  decide

/-- C3, evaluated on the token type "élan" (bytes C3 A9 6C 61 6E) and the
token "T": the first byte alone is converted to the code point U+00C3 and
re-encoded, so the header value is C3 83 A9 6C 61 6E 20 54, which is not the
text "Élan T". -/
theorem headerAuth_non_ascii_type :
    headerAuth (str "T") (str "élan") =
      .ok (str "Authorization",
        [byte 0xC3, byte 0x83, byte 0xA9, byte 0x6C, byte 0x61, byte 0x6E, byte 0x20,
          byte 0x54]) ∧
    headerAuth (str "T") (str "élan") ≠ .ok (str "Authorization", str "Élan T") := by
  decide

/-! ## Login -/

/-- C6: when the login request is answered with status 200 and the body
decodes to a map whose "data" is a map with the string t under "token", and
whose "token_type" and "message" are the strings y and m, `GetToken` returns
a nil error and the session with Token t, Type y, Message m and an empty
Error. -/
theorem GetToken_well_formed (env : Env) (auth : Option Auth) (w : Request) (s : GoString)
    (m dm : JMap) (t y msg : GoString)
    (hsent : (request env (baseURL ++ loginURL) (str "POST") (.auth auth) [] []).1 = [w])
    (hdo : env.Do w = .ok (200, s))
    (hjson : env.Unmarshal s = .ok m)
    (hdata : index m (str "data") = .object dm)
    (htoken : index dm (str "token") = .string t)
    (htype : index m (str "token_type") = .string y)
    (hmsg : index m (str "message") = .string msg) :
    GetToken env auth =
      ⟨[w], .ok ({ Token := t, Type_ := y, log := some { NameSpace := str "eskiz" },
                   Message := msg, Error := [] }, none)⟩ := by
  have hreq := request_other_status env _ _ _ _ _ w 200 s hsent hdo (by decide) (by decide)
  unfold GetToken
  simp only [hreq, hsent, hjson, hdata, htoken, htype, hmsg, assertMap, assertString,
    Except.bind]

/-- C6 at the end-to-end scenario: the body with token "T1", type "bearer"
and message "ok" gives the session with exactly these values. -/
theorem GetToken_well_formed_witness :
    GetToken (answering 200 loginBody [(loginBody, loginMap)]) (some sampleAuth) =
      ⟨[loginRequest],
        .ok ({ Token := str "T1", Type_ := str "bearer",
               log := some { NameSpace := str "eskiz" }, Message := str "ok", Error := [] },
             none)⟩ :=
  GetToken_well_formed (answering 200 loginBody [(loginBody, loginMap)]) (some sampleAuth)
    _ loginBody loginMap [(str "token", .string (str "T1"))] (str "T1") (str "bearer")
    (str "ok") (by decide) (by decide) rfl rfl rfl rfl rfl

/-- A login whose request outcome carries an error e, or carries none but
has a payload that fails to decode with error e, returns e together with a
session whose Token and Type are empty and whose Error is the text of e. -/
theorem GetToken_of_failed_outcome (env : Env) (auth : Option Auth) (e : GoString)
    (h : (request env (baseURL ++ loginURL) (str "POST") (.auth auth) [] []).2.err = some e ∨
      ((request env (baseURL ++ loginURL) (str "POST") (.auth auth) [] []).2.err = none ∧
        env.Unmarshal
          (request env (baseURL ++ loginURL) (str "POST") (.auth auth) [] []).2.dataMarshal =
            .error e)) :
    (GetToken env auth).result =
      .ok ({ Token := [], Type_ := [], log := some { NameSpace := str "eskiz" },
             Message := (request env (baseURL ++ loginURL) (str "POST") (.auth auth) [] []).2.message,
             Error := e }, some e) := by
  unfold GetToken
  rcases h with h | ⟨h, hu⟩
  · simp only [h]
  · simp only [h, hu]

/-- C7: a login whose request outcome carries an error e (in particular a
transport failure e, or an answer with status 400 or 401, where e is "bad
request" or "unauthorized"), or whose answer has another status and a body
that fails to decode with error e, returns the non-nil error e together with
a session whose Token and Type are empty and whose Error is the text of e. -/
theorem GetToken_failure (env : Env) (auth : Option Auth) :
    (∀ e, (request env (baseURL ++ loginURL) (str "POST") (.auth auth) [] []).2.err = some e →
      ∃ s, (GetToken env auth).result = .ok (s, some e) ∧
        s.Token = [] ∧ s.Type_ = [] ∧ s.Error = e) ∧
    (∀ w, (request env (baseURL ++ loginURL) (str "POST") (.auth auth) [] []).1 = [w] →
      (∀ e, env.Do w = .error e →
        ∃ s, (GetToken env auth).result = .ok (s, some e) ∧
          s.Token = [] ∧ s.Type_ = [] ∧ s.Error = e) ∧
      (∀ body, env.Do w = .ok (400, body) →
        ∃ s, (GetToken env auth).result = .ok (s, some (str "bad request")) ∧
          s.Token = [] ∧ s.Type_ = [] ∧ s.Error = str "bad request") ∧
      (∀ body, env.Do w = .ok (401, body) →
        ∃ s, (GetToken env auth).result = .ok (s, some (str "unauthorized")) ∧
          s.Token = [] ∧ s.Type_ = [] ∧ s.Error = str "unauthorized") ∧
      (∀ status body e, status ≠ 400 → status ≠ 401 → env.Do w = .ok (status, body) →
        env.Unmarshal body = .error e →
        ∃ s, (GetToken env auth).result = .ok (s, some e) ∧
          s.Token = [] ∧ s.Type_ = [] ∧ s.Error = e)) := by
  refine ⟨?_, ?_⟩
  · intro e h
    exact ⟨_, GetToken_of_failed_outcome env auth e (Or.inl h), rfl, rfl, rfl⟩
  · intro w hsent
    refine ⟨?_, ?_, ?_, ?_⟩
    · intro e hdo
      have hreq := request_transport_failure env _ _ _ _ _ w e hsent hdo
      exact ⟨_, GetToken_of_failed_outcome env auth e (Or.inl (by rw [hreq])), rfl, rfl, rfl⟩
    · intro body hdo
      have hreq := request_answered env _ _ _ _ _ w 400 body hsent hdo
      exact ⟨_, GetToken_of_failed_outcome env auth _ (Or.inl (by rw [hreq]; rfl)),
        rfl, rfl, rfl⟩
    · intro body hdo
      have hreq := request_answered env _ _ _ _ _ w 401 body hsent hdo
      exact ⟨_, GetToken_of_failed_outcome env auth _ (Or.inl (by rw [hreq]; rfl)),
        rfl, rfl, rfl⟩
    · intro status body e h400 h401 hdo hu
      have hreq := request_other_status env _ _ _ _ _ w status body hsent hdo h400 h401
      exact ⟨_, GetToken_of_failed_outcome env auth e
        (Or.inr ⟨by rw [hreq], by rw [hreq]; exact hu⟩), rfl, rfl, rfl⟩

/-- C7 at a login answered with 401, at a backend that cannot be reached, and
at a login answered with status 200 and a body that is not JSON. -/
theorem GetToken_failure_witness :
    (∃ s, (GetToken (answering 401 (str "no") []) (some sampleAuth)).result =
        .ok (s, some (str "unauthorized")) ∧
      s.Token = [] ∧ s.Type_ = [] ∧ s.Error = str "unauthorized") ∧
    (∃ s, (GetToken unreachable (some sampleAuth)).result =
        .ok (s, some (str "dial tcp: i/o timeout")) ∧
      s.Token = [] ∧ s.Type_ = [] ∧ s.Error = str "dial tcp: i/o timeout") ∧
    (∃ s, (GetToken (answering 200 (str "<html>") []) (some sampleAuth)).result =
        .ok (s, some (str "invalid character")) ∧
      s.Token = [] ∧ s.Type_ = [] ∧ s.Error = str "invalid character") :=
  ⟨((GetToken_failure (answering 401 (str "no") []) (some sampleAuth)).2 loginRequest
      (by decide)).2.2.1 (str "no") (by decide),
   ((GetToken_failure unreachable (some sampleAuth)).2 loginRequest
      (by decide)).1 (str "dial tcp: i/o timeout") (by decide),
   ((GetToken_failure (answering 200 (str "<html>") []) (some sampleAuth)).2 loginRequest
      (by decide)).2.2.2 200 (str "<html>") (str "invalid character") (by decide) (by decide)
      (by decide) rfl⟩

/-! ## The Content-Type header -/

/-- Under any header key other than `Content-Type` itself, the request built
carries `Content-Type: application/json` when the body is not the nil
interface and no `Content-Type` at all when it is. -/
theorem outgoing_content_type (url method js : GoString) (body : Body)
    (keyHeader valueHeader : GoString)
    (hk : CanonicalMIMEHeaderKey keyHeader ≠ str "Content-Type") :
    (outgoing url method js body keyHeader valueHeader).Header.Get (str "Content-Type") =
      if body = Body.nil then none else some (str "application/json") := by
  have hc : CanonicalMIMEHeaderKey (str "Content-Type") = str "Content-Type" := by decide
  have hne : (str "Content-Type" == CanonicalMIMEHeaderKey keyHeader) = false := by
    simpa using Ne.symm hk
  by_cases hkey : keyHeader = [] <;> by_cases hb : body = Body.nil <;>
    simp [outgoing, hb, hkey, Header.Set, Header.Get, hc, hne, List.lookup]

/-- The two header keys the package passes, the empty one of `GetToken` and
"Authorization", are not `Content-Type`. -/
theorem package_keys_not_content_type :
    CanonicalMIMEHeaderKey [] ≠ str "Content-Type" ∧
    CanonicalMIMEHeaderKey (str "Authorization") ≠ str "Content-Type" := by
  decide

/-- The key `headerAuth` returns is always "Authorization". -/
theorem headerAuth_key (token ty key value : GoString)
    (h : headerAuth token ty = .ok (key, value)) : key = str "Authorization" := by
  unfold headerAuth at h
  cases ty with
  | nil => simp at h
  | cons b rest =>
    simp only [Except.ok.injEq, Prod.mk.injEq] at h
    exact h.1.symm

/-- The Content-Type of whatever `request` sends under a header key other
than `Content-Type` itself. -/
theorem request_content_type (env : Env) (url method : GoString) (body : Body)
    (keyHeader valueHeader : GoString) (w : Request)
    (hk : CanonicalMIMEHeaderKey keyHeader ≠ str "Content-Type")
    (hw : w ∈ (request env url method body keyHeader valueHeader).1) :
    w.Header.Get (str "Content-Type") =
      if body = Body.nil then none else some (str "application/json") := by
  rcases request_sent_cases env url method body keyHeader valueHeader with h0 | ⟨w1, h1⟩
  · rw [h0] at hw
    cases hw
  · rw [h1] at hw
    have hw1 : w = w1 := by simpa using hw
    subst hw1
    obtain ⟨js, _, _, hout⟩ := request_sent env url method body keyHeader valueHeader w h1
    rw [hout]
    exact outgoing_content_type url method js body keyHeader valueHeader hk

/-- What `Send` sends is what `request` sends for the SMS endpoint, method
POST, the SMS as body and the key "Authorization". -/
theorem Send_sent (env : Env) (eskiz : Eskiz) (sms : Option SMS) :
    (Send env eskiz sms).sent = [] ∨
      ∃ v, (Send env eskiz sms).sent =
        (request env (baseURL ++ smsURL) (str "POST") (.sms sms) (str "Authorization") v).1 := by
  unfold Send
  cases eskiz.log with
  | none => exact Or.inl rfl
  | some l =>
    cases hh : headerAuth eskiz.Token eskiz.Type_ with
    | error f => exact Or.inl rfl
    | ok kv =>
      obtain ⟨k, v⟩ := kv
      have hk := headerAuth_key _ _ _ _ hh
      subst hk
      refine Or.inr ⟨v, ?_⟩
      simp only
      split
      · rfl
      · split <;> rfl

/-- What `GetUserLimit` sends is what `request` sends for the limit endpoint,
method GET, no body and the key "Authorization". -/
theorem GetUserLimit_sent (env : Env) (eskiz : Eskiz) :
    (GetUserLimit env eskiz).sent = [] ∨
      ∃ v, (GetUserLimit env eskiz).sent =
        (request env (baseURL ++ limitURL) (str "GET") .nil (str "Authorization") v).1 := by
  unfold GetUserLimit
  cases eskiz.log with
  | none => exact Or.inl rfl
  | some l =>
    cases hh : headerAuth eskiz.Token eskiz.Type_ with
    | error f => exact Or.inl rfl
    | ok kv =>
      obtain ⟨k, v⟩ := kv
      have hk := headerAuth_key _ _ _ _ hh
      subst hk
      refine Or.inr ⟨v, ?_⟩
      simp only
      split
      · rfl
      · split <;> rfl

/-- What `GetMe` sends is what `request` sends for the user endpoint, method
GET, no body and the key "Authorization". -/
theorem GetMe_sent (env : Env) (eskiz : Eskiz) :
    (GetMe env eskiz).sent = [] ∨
      ∃ v, (GetMe env eskiz).sent =
        (request env (baseURL ++ userURL) (str "GET") .nil (str "Authorization") v).1 := by
  unfold GetMe
  cases eskiz.log with
  | none => exact Or.inl rfl
  | some l =>
    cases hh : headerAuth eskiz.Token eskiz.Type_ with
    | error f => exact Or.inl rfl
    | ok kv =>
      obtain ⟨k, v⟩ := kv
      have hk := headerAuth_key _ _ _ _ hh
      subst hk
      refine Or.inr ⟨v, ?_⟩
      simp only
      split
      · rfl
      · split <;> rfl

/-- What `RefreshToken` sends is what `request` sends for the refresh
endpoint, method PATCH, no body and the key "Authorization". -/
theorem RefreshToken_sent (env : Env) (eskiz : Eskiz) :
    (RefreshToken env eskiz).2.sent = [] ∨
      ∃ v, (RefreshToken env eskiz).2.sent =
        (request env (baseURL ++ refreshURL) (str "PATCH") .nil (str "Authorization") v).1 := by
  unfold RefreshToken
  cases eskiz.log with
  | none => exact Or.inl rfl
  | some l =>
    cases hh : headerAuth eskiz.Token eskiz.Type_ with
    | error f => exact Or.inl rfl
    | ok kv =>
      obtain ⟨k, v⟩ := kv
      have hk := headerAuth_key _ _ _ _ hh
      subst hk
      refine Or.inr ⟨v, ?_⟩
      simp only
      split
      · rfl
      · split
        · rfl
        · split
          · rfl
          · split
            · rfl
            · split <;> rfl

/-- What `GetToken` sends is what `request` sends for the login endpoint,
method POST, the credentials as body and no header key. -/
theorem GetToken_sent (env : Env) (auth : Option Auth) :
    (GetToken env auth).sent =
      (request env (baseURL ++ loginURL) (str "POST") (.auth auth) [] []).1 := by
  unfold GetToken
  simp only
  split
  · rfl
  · split
    · rfl
    · split
      · rfl
      · split
        · rfl
        · split <;> rfl

/-- Every request that leaves `request` under a header key other than
`Content-Type` itself carries `Content-Type: application/json` if and only if
the body is not nil; every request that leaves `Send` or `GetToken` carries
it, and every request that leaves `GetUserLimit`, `GetMe` or `RefreshToken`
carries no Content-Type. -/
theorem content_type_of_sent (env : Env) (eskiz : Eskiz) (sms : Option SMS)
    (auth : Option Auth) :
    (∀ (url method : GoString) (body : Body) (keyHeader valueHeader : GoString) (w : Request),
      CanonicalMIMEHeaderKey keyHeader ≠ str "Content-Type" →
      w ∈ (request env url method body keyHeader valueHeader).1 →
        (w.Header.Get (str "Content-Type") = some (str "application/json") ↔ body ≠ Body.nil) ∧
        (body = Body.nil → w.Header.Get (str "Content-Type") = none)) ∧
    (∀ w ∈ (Send env eskiz sms).sent,
      w.Header.Get (str "Content-Type") = some (str "application/json")) ∧
    (∀ w ∈ (GetToken env auth).sent,
      w.Header.Get (str "Content-Type") = some (str "application/json")) ∧
    (∀ w ∈ (GetUserLimit env eskiz).sent, w.Header.Get (str "Content-Type") = none) ∧
    (∀ w ∈ (GetMe env eskiz).sent, w.Header.Get (str "Content-Type") = none) ∧
    (∀ w ∈ (RefreshToken env eskiz).2.sent, w.Header.Get (str "Content-Type") = none) := by
  refine ⟨?_, ?_, ?_, ?_, ?_, ?_⟩
  · intro url method body keyHeader valueHeader w hk hw
    have h := request_content_type env url method body keyHeader valueHeader w hk hw
    by_cases hb : body = Body.nil
    · simp [h, hb]
    · simp [h, hb]
  · intro w hw
    rcases Send_sent env eskiz sms with h0 | ⟨v, hv⟩
    · rw [h0] at hw
      cases hw
    · rw [hv] at hw
      rw [request_content_type env _ _ _ _ _ w package_keys_not_content_type.2 hw]
      simp
  · intro w hw
    rw [GetToken_sent] at hw
    rw [request_content_type env _ _ _ _ _ w package_keys_not_content_type.1 hw]
    simp
  · intro w hw
    rcases GetUserLimit_sent env eskiz with h0 | ⟨v, hv⟩
    · rw [h0] at hw
      cases hw
    · rw [hv] at hw
      rw [request_content_type env _ _ _ _ _ w package_keys_not_content_type.2 hw]
      simp
  · intro w hw
    rcases GetMe_sent env eskiz with h0 | ⟨v, hv⟩
    · rw [h0] at hw
      cases hw
    · rw [hv] at hw
      rw [request_content_type env _ _ _ _ _ w package_keys_not_content_type.2 hw]
      simp
  · intro w hw
    rcases RefreshToken_sent env eskiz with h0 | ⟨v, hv⟩
    · rw [h0] at hw
      cases hw
    · rw [hv] at hw
      rw [request_content_type env _ _ _ _ _ w package_keys_not_content_type.2 hw]
      simp

/-- Once marshalling and `http.NewRequest` succeed, `request` hands exactly
the request `outgoing` builds to `client.Do`. -/
theorem request_sends (env : Env) (url method : GoString) (body : Body)
    (keyHeader valueHeader js : GoString)
    (hm : env.Marshal body = .ok js) (hn : env.NewRequest method url = none) :
    (request env url method body keyHeader valueHeader).1 =
      [outgoing url method js body keyHeader valueHeader] := by
  unfold request
  simp only [hm, hn]
  split <;> rfl

/-- With a logger and a header from `headerAuth`, `Send` sends what `request`
sends for the SMS endpoint. -/
theorem Send_sends (env : Env) (eskiz : Eskiz) (sms : Option SMS) (l : Log)
    (key value : GoString) (hl : eskiz.log = some l)
    (hh : headerAuth eskiz.Token eskiz.Type_ = .ok (key, value)) :
    (Send env eskiz sms).sent =
      (request env (baseURL ++ smsURL) (str "POST") (.sms sms) key value).1 := by
  unfold Send
  simp only [hl, hh]
  split
  · rfl
  · split <;> rfl

/-- With a logger and a header from `headerAuth`, `GetUserLimit` sends what
`request` sends for the limit endpoint. -/
theorem GetUserLimit_sends (env : Env) (eskiz : Eskiz) (l : Log)
    (key value : GoString) (hl : eskiz.log = some l)
    (hh : headerAuth eskiz.Token eskiz.Type_ = .ok (key, value)) :
    (GetUserLimit env eskiz).sent =
      (request env (baseURL ++ limitURL) (str "GET") .nil key value).1 := by
  unfold GetUserLimit
  simp only [hl, hh]
  split
  · rfl
  · split <;> rfl

/-- With a logger and a header from `headerAuth`, `GetMe` sends what
`request` sends for the user endpoint. -/
theorem GetMe_sends (env : Env) (eskiz : Eskiz) (l : Log)
    (key value : GoString) (hl : eskiz.log = some l)
    (hh : headerAuth eskiz.Token eskiz.Type_ = .ok (key, value)) :
    (GetMe env eskiz).sent =
      (request env (baseURL ++ userURL) (str "GET") .nil key value).1 := by
  unfold GetMe
  simp only [hl, hh]
  split
  · rfl
  · split <;> rfl

/-- With a logger and a header from `headerAuth`, `RefreshToken` sends what
`request` sends for the refresh endpoint. -/
theorem RefreshToken_sends (env : Env) (eskiz : Eskiz) (l : Log)
    (key value : GoString) (hl : eskiz.log = some l)
    (hh : headerAuth eskiz.Token eskiz.Type_ = .ok (key, value)) :
    (RefreshToken env eskiz).2.sent =
      (request env (baseURL ++ refreshURL) (str "PATCH") .nil key value).1 := by
  unfold RefreshToken
  simp only [hl, hh]
  split
  · rfl
  · split
    · rfl
    · split
      · rfl
      · split
        · rfl
        · split <;> rfl

/-- C9: once marshalling and `http.NewRequest` succeed, `request` hands to
`client.Do` exactly one request, and under any header key other than
`Content-Type` itself (the package passes no key or "Authorization") that
request carries `Content-Type: application/json` if and only if the body is
not nil, and no Content-Type when it is nil.  So `Send` (on a session with a
logger and a non-empty Type, where `headerAuth` returns) and `GetToken` send
exactly one request and it carries `Content-Type: application/json`, and
`GetUserLimit`, `GetMe` and `RefreshToken` send exactly one request and it
carries no Content-Type; and no operation sends any other request. -/
theorem content_type_iff_body (env : Env) (eskiz : Eskiz) (sms : Option SMS)
    (auth : Option Auth) :
    (∀ (url method : GoString) (body : Body) (keyHeader valueHeader : GoString),
      CanonicalMIMEHeaderKey keyHeader ≠ str "Content-Type" →
      (∀ w ∈ (request env url method body keyHeader valueHeader).1,
        (w.Header.Get (str "Content-Type") = some (str "application/json") ↔
          body ≠ Body.nil) ∧
        (body = Body.nil → w.Header.Get (str "Content-Type") = none)) ∧
      (∀ js, env.Marshal body = .ok js → env.NewRequest method url = none →
        (request env url method body keyHeader valueHeader).1 =
          [outgoing url method js body keyHeader valueHeader] ∧
        ((outgoing url method js body keyHeader valueHeader).Header.Get (str "Content-Type") =
          some (str "application/json") ↔ body ≠ Body.nil) ∧
        (body = Body.nil →
          (outgoing url method js body keyHeader valueHeader).Header.Get
            (str "Content-Type") = none))) ∧
    ((∀ w ∈ (Send env eskiz sms).sent,
        w.Header.Get (str "Content-Type") = some (str "application/json")) ∧
      (∀ l key value js, eskiz.log = some l →
        headerAuth eskiz.Token eskiz.Type_ = .ok (key, value) →
        env.Marshal (.sms sms) = .ok js →
        env.NewRequest (str "POST") (baseURL ++ smsURL) = none →
        (Send env eskiz sms).sent =
          [outgoing (baseURL ++ smsURL) (str "POST") js (.sms sms) key value] ∧
        (outgoing (baseURL ++ smsURL) (str "POST") js (.sms sms) key value).Header.Get
          (str "Content-Type") = some (str "application/json"))) ∧
    ((∀ w ∈ (GetToken env auth).sent,
        w.Header.Get (str "Content-Type") = some (str "application/json")) ∧
      (∀ js, env.Marshal (.auth auth) = .ok js →
        env.NewRequest (str "POST") (baseURL ++ loginURL) = none →
        (GetToken env auth).sent =
          [outgoing (baseURL ++ loginURL) (str "POST") js (.auth auth) [] []] ∧
        (outgoing (baseURL ++ loginURL) (str "POST") js (.auth auth) [] []).Header.Get
          (str "Content-Type") = some (str "application/json"))) ∧
    ((∀ w ∈ (GetUserLimit env eskiz).sent, w.Header.Get (str "Content-Type") = none) ∧
      (∀ l key value js, eskiz.log = some l →
        headerAuth eskiz.Token eskiz.Type_ = .ok (key, value) →
        env.Marshal .nil = .ok js →
        env.NewRequest (str "GET") (baseURL ++ limitURL) = none →
        (GetUserLimit env eskiz).sent =
          [outgoing (baseURL ++ limitURL) (str "GET") js .nil key value] ∧
        (outgoing (baseURL ++ limitURL) (str "GET") js .nil key value).Header.Get
          (str "Content-Type") = none)) ∧
    ((∀ w ∈ (GetMe env eskiz).sent, w.Header.Get (str "Content-Type") = none) ∧
      (∀ l key value js, eskiz.log = some l →
        headerAuth eskiz.Token eskiz.Type_ = .ok (key, value) →
        env.Marshal .nil = .ok js →
        env.NewRequest (str "GET") (baseURL ++ userURL) = none →
        (GetMe env eskiz).sent =
          [outgoing (baseURL ++ userURL) (str "GET") js .nil key value] ∧
        (outgoing (baseURL ++ userURL) (str "GET") js .nil key value).Header.Get
          (str "Content-Type") = none)) ∧
    ((∀ w ∈ (RefreshToken env eskiz).2.sent, w.Header.Get (str "Content-Type") = none) ∧
      (∀ l key value js, eskiz.log = some l →
        headerAuth eskiz.Token eskiz.Type_ = .ok (key, value) →
        env.Marshal .nil = .ok js →
        env.NewRequest (str "PATCH") (baseURL ++ refreshURL) = none →
        (RefreshToken env eskiz).2.sent =
          [outgoing (baseURL ++ refreshURL) (str "PATCH") js .nil key value] ∧
        (outgoing (baseURL ++ refreshURL) (str "PATCH") js .nil key value).Header.Get
          (str "Content-Type") = none)) := by
  have hold := content_type_of_sent env eskiz sms auth
  have hauth : ∀ key value, headerAuth eskiz.Token eskiz.Type_ = .ok (key, value) →
      CanonicalMIMEHeaderKey key ≠ str "Content-Type" := by
    intro key value hh
    rw [headerAuth_key _ _ _ _ hh]
    exact package_keys_not_content_type.2
  refine ⟨?_, ⟨hold.2.1, ?_⟩, ⟨hold.2.2.1, ?_⟩, ⟨hold.2.2.2.1, ?_⟩, ⟨hold.2.2.2.2.1, ?_⟩,
    ⟨hold.2.2.2.2.2, ?_⟩⟩
  · intro url method body keyHeader valueHeader hk
    refine ⟨fun w hw => hold.1 url method body keyHeader valueHeader w hk hw, ?_⟩
    intro js hm hn
    have hct := outgoing_content_type url method js body keyHeader valueHeader hk
    refine ⟨request_sends env url method body keyHeader valueHeader js hm hn, ?_, ?_⟩
    · rw [hct]
      by_cases hb : body = Body.nil
      · simp [hb]
      · simp [hb]
    · intro hb
      rw [hct]
      simp [hb]
  · intro l key value js hl hh hm hn
    refine ⟨?_, ?_⟩
    · rw [Send_sends env eskiz sms l key value hl hh]
      exact request_sends env _ _ _ key value js hm hn
    · rw [outgoing_content_type _ _ js _ key value (hauth key value hh)]
      simp
  · intro js hm hn
    refine ⟨?_, ?_⟩
    · rw [GetToken_sent]
      exact request_sends env _ _ _ [] [] js hm hn
    · rw [outgoing_content_type _ _ js _ [] [] package_keys_not_content_type.1]
      simp
  · intro l key value js hl hh hm hn
    refine ⟨?_, ?_⟩
    · rw [GetUserLimit_sends env eskiz l key value hl hh]
      exact request_sends env _ _ _ key value js hm hn
    · rw [outgoing_content_type _ _ js _ key value (hauth key value hh)]
      simp
  · intro l key value js hl hh hm hn
    refine ⟨?_, ?_⟩
    · rw [GetMe_sends env eskiz l key value hl hh]
      exact request_sends env _ _ _ key value js hm hn
    · rw [outgoing_content_type _ _ js _ key value (hauth key value hh)]
      simp
  · intro l key value js hl hh hm hn
    refine ⟨?_, ?_⟩
    · rw [RefreshToken_sends env eskiz l key value hl hh]
      exact request_sends env _ _ _ key value js hm hn
    · rw [outgoing_content_type _ _ js _ key value (hauth key value hh)]
      simp

/-- The end-to-end scenario: `Send` on the session of the scenario hands
exactly one request to `client.Do`, a POST to the SMS endpoint with the
header `Authorization: Bearer T1`, and `GetMe` one GET to the user endpoint. -/
theorem scenario_requests :
    (Send (answering 200 (str "ok") []) sampleSession (some sampleSMS)).sent = [scenarioSend] ∧
    (GetMe (answering 200 (str "ok") []) sampleSession).sent = [scenarioGetMe] := by
  decide

/-- C9 at the end-to-end scenario: `Send` on the session of the scenario
sends exactly one request and it carries `Content-Type: application/json`;
`GetMe` sends exactly one request and it carries no Content-Type; the login
sends exactly one request and it carries `Content-Type: application/json`. -/
theorem content_type_iff_body_witness :
    ((Send (answering 200 (str "ok") []) sampleSession (some sampleSMS)).sent =
        [outgoing (baseURL ++ smsURL) (str "POST") scenarioSend.Body (.sms (some sampleSMS))
          (str "Authorization") (str "Bearer T1")] ∧
      (outgoing (baseURL ++ smsURL) (str "POST") scenarioSend.Body (.sms (some sampleSMS))
        (str "Authorization") (str "Bearer T1")).Header.Get (str "Content-Type") =
          some (str "application/json")) ∧
    ((GetMe (answering 200 (str "ok") []) sampleSession).sent =
        [outgoing (baseURL ++ userURL) (str "GET") (str "null") .nil
          (str "Authorization") (str "Bearer T1")] ∧
      (outgoing (baseURL ++ userURL) (str "GET") (str "null") .nil
        (str "Authorization") (str "Bearer T1")).Header.Get (str "Content-Type") = none) ∧
    ((GetToken (answering 200 (str "ok") []) (some sampleAuth)).sent =
        [outgoing (baseURL ++ loginURL) (str "POST") loginRequest.Body (.auth (some sampleAuth))
          [] []] ∧
      (outgoing (baseURL ++ loginURL) (str "POST") loginRequest.Body (.auth (some sampleAuth))
        [] []).Header.Get (str "Content-Type") = some (str "application/json")) :=
  ⟨(content_type_iff_body (answering 200 (str "ok") []) sampleSession (some sampleSMS)
      (some sampleAuth)).2.1.2 { NameSpace := str "eskiz" } (str "Authorization")
      (str "Bearer T1") scenarioSend.Body rfl (by decide) (by decide) rfl,
   (content_type_iff_body (answering 200 (str "ok") []) sampleSession (some sampleSMS)
      (some sampleAuth)).2.2.2.2.1.2 { NameSpace := str "eskiz" } (str "Authorization")
      (str "Bearer T1") (str "null") rfl (by decide) (by decide) rfl,
   (content_type_iff_body (answering 200 (str "ok") []) sampleSession (some sampleSMS)
      (some sampleAuth)).2.2.1.2 loginRequest.Body (by decide) rfl⟩

/-- The requests of the scenario, written out: what `outgoing` builds for
`Send`, `GetMe` and the login are the records `scenarioSend`, `scenarioGetMe`
and `loginRequest`. -/
theorem scenario_outgoing :
    outgoing (baseURL ++ smsURL) (str "POST") scenarioSend.Body (.sms (some sampleSMS))
      (str "Authorization") (str "Bearer T1") = scenarioSend ∧
    outgoing (baseURL ++ userURL) (str "GET") (str "null") .nil
      (str "Authorization") (str "Bearer T1") = scenarioGetMe ∧
    outgoing (baseURL ++ loginURL) (str "POST") loginRequest.Body (.auth (some sampleAuth))
      [] [] = loginRequest := by
  decide

/-! ## Sessions with an empty token type -/

/-- A session `GetToken` returns together with an error has an empty Token
and an empty Type, and carries the logger. -/
theorem GetToken_error_session (env : Env) (auth : Option Auth) (s : Eskiz) (e : GoString)
    (h : (GetToken env auth).result = .ok (s, some e)) :
    s.Token = [] ∧ s.Type_ = [] ∧ s.log.isSome = true := by
  unfold GetToken at h
  simp only at h
  split at h
  · simp only [Except.ok.injEq, Prod.mk.injEq] at h
    rw [← h.1]
    exact ⟨rfl, rfl, rfl⟩
  · split at h
    · simp only [Except.ok.injEq, Prod.mk.injEq] at h
      rw [← h.1]
      exact ⟨rfl, rfl, rfl⟩
    · split at h
      · cases h
      · split at h
        · cases h
        · split at h
          · cases h
          · simp at h

/-- C10: `headerAuth` returns a header exactly when the token type is not
empty and panics with an index out of range when it is empty; on a session
whose Type is empty, `Send`, `GetUserLimit`, `GetMe` and `RefreshToken` panic
(at `headerAuth`, or before it when the session has no logger) with no
request sent, no value returned and the session untouched; and the session
`GetToken` returns with an error has a logger and an empty Type. -/
theorem headerAuth_defined_iff_type_nonempty (env : Env) (token ty : GoString)
    (eskiz : Eskiz) (sms : Option SMS) (auth : Option Auth) :
    ((∃ kv, headerAuth token ty = .ok kv) ↔ ty ≠ []) ∧
    (headerAuth token ty = .error .indexOutOfRange ↔ ty = []) ∧
    (eskiz.Type_ = [] →
      Send env eskiz sms =
        ⟨[], .error (if eskiz.log.isSome then .indexOutOfRange else .nilDereference)⟩ ∧
      GetUserLimit env eskiz =
        ⟨[], .error (if eskiz.log.isSome then .indexOutOfRange else .nilDereference)⟩ ∧
      GetMe env eskiz =
        ⟨[], .error (if eskiz.log.isSome then .indexOutOfRange else .nilDereference)⟩ ∧
      RefreshToken env eskiz =
        (eskiz, ⟨[], .error (if eskiz.log.isSome then .indexOutOfRange else .nilDereference)⟩)) ∧
    (∀ s e, (GetToken env auth).result = .ok (s, some e) →
      s.Type_ = [] ∧ s.log.isSome = true) := by
  refine ⟨?_, ?_, ?_, ?_⟩
  · cases ty with
    | nil => simp [headerAuth]
    | cons b rest => simp [headerAuth]
  · cases ty with
    | nil => simp [headerAuth]
    | cons b rest => simp [headerAuth]
  · intro hty
    have hh : headerAuth eskiz.Token eskiz.Type_ = .error .indexOutOfRange := by
      rw [hty]
      rfl
    refine ⟨?_, ?_, ?_, ?_⟩
    · unfold Send
      cases eskiz.log with
      | none => rfl
      | some l => simp only [hh]; rfl
    · unfold GetUserLimit
      cases eskiz.log with
      | none => rfl
      | some l => simp only [hh]; rfl
    · unfold GetMe
      cases eskiz.log with
      | none => rfl
      | some l => simp only [hh]; rfl
    · unfold RefreshToken
      cases eskiz.log with
      | none => rfl
      | some l => simp only [hh]; rfl
  · intro s e h
    exact ⟨(GetToken_error_session env auth s e h).2.1, (GetToken_error_session env auth s e h).2.2⟩

/-- C10 at the session of a failed login: `Send` and `RefreshToken` panic
with an index out of range and send nothing. -/
theorem headerAuth_defined_iff_type_nonempty_witness :
    Send (answering 200 (str "ok") []) failedSession (some sampleSMS) =
      ⟨[], .error .indexOutOfRange⟩ ∧
    RefreshToken (answering 200 (str "ok") []) failedSession =
      (failedSession, ⟨[], .error .indexOutOfRange⟩) :=
  ⟨((headerAuth_defined_iff_type_nonempty (answering 200 (str "ok") []) [] [] failedSession
      (some sampleSMS) none).2.2.1 rfl).1,
   ((headerAuth_defined_iff_type_nonempty (answering 200 (str "ok") []) [] [] failedSession
      (some sampleSMS) none).2.2.1 rfl).2.2.2⟩

/-! ## Type assertions on the decoded response -/

/-- The assertion `v.(string)` succeeds exactly on strings. -/
theorem assertString_ok (v : Value) (t : GoString) :
    assertString v = .ok t ↔ v = .string t := by
  cases v <;> simp [assertString]

/-- The only fault of `v.(string)` is the interface conversion. -/
theorem assertString_error (v : Value) (f : Fault) (h : assertString v = .error f) :
    f = .interfaceConversion ∧ ∀ t, v ≠ .string t := by
  cases v <;> simp [assertString] at h ⊢ <;> exact h.symm

/-- The chain `response["data"].(map[string]interface{})["token"].(string)`
succeeds exactly when "data" is a map with a string under "token". -/
theorem token_chain_ok (m : JMap) (t : GoString) :
    (assertMap (index m (str "data"))).bind
        (fun dm => assertString (index dm (str "token"))) = .ok t ↔
      ∃ dm, index m (str "data") = .object dm ∧ index dm (str "token") = .string t := by
  cases hd : index m (str "data") <;> simp [assertMap, Except.bind, assertString_ok]

/-- The only fault of the chain is the interface conversion. -/
theorem token_chain_error (m : JMap) (f : Fault)
    (h : (assertMap (index m (str "data"))).bind
        (fun dm => assertString (index dm (str "token"))) = .error f) :
    f = .interfaceConversion := by
  cases hd : index m (str "data") <;> simp [hd, assertMap, Except.bind] at h
  all_goals first | exact h.symm | exact (assertString_error _ _ h).1

/-- A login whose request succeeds and whose payload decodes, but where
"data" is not a map with a string "token", or "token_type" or "message" is
not a string, ends in the panic of a failed interface conversion. -/
theorem GetToken_missing_field (env : Env) (auth : Option Auth) (m : JMap)
    (hreq : (request env (baseURL ++ loginURL) (str "POST") (.auth auth) [] []).2.err = none)
    (hjson : env.Unmarshal
      (request env (baseURL ++ loginURL) (str "POST") (.auth auth) [] []).2.dataMarshal = .ok m)
    (hmiss : (∀ dm t, index m (str "data") = .object dm → index dm (str "token") ≠ .string t) ∨
      (∀ y, index m (str "token_type") ≠ .string y) ∨
      (∀ msg, index m (str "message") ≠ .string msg)) :
    (GetToken env auth).result = .error .interfaceConversion := by
  unfold GetToken
  simp only [hreq, hjson]
  split
  · rename_i f hf
    rw [token_chain_error m f hf]
  · rename_i t ht
    obtain ⟨dm, hdm, htok⟩ := (token_chain_ok m t).1 ht
    split
    · rename_i f hf
      rw [(assertString_error _ f hf).1]
    · rename_i y hy
      split
      · rename_i f hf
        rw [(assertString_error _ f hf).1]
      · rename_i msg hmsg
        exfalso
        rcases hmiss with h1 | h2 | h3
        · exact h1 dm t hdm htok
        · exact h2 y ((assertString_ok _ _).1 hy)
        · exact h3 msg ((assertString_ok _ _).1 hmsg)

/-- C5, evaluated on a login answered with status 200 and the body of an
empty JSON object: `GetToken` ends in the panic of a failed interface
conversion; it returns no session and no error. -/
theorem GetToken_empty_object_panics :
    (GetToken (answering 200 (str "\x7b\x7d") [(str "\x7b\x7d", [])])
      (some sampleAuth)).result = .error .interfaceConversion := by
  decide

/-! ## Refresh -/

/-- A `RefreshToken` that returns an error leaves the session as it was. -/
theorem RefreshToken_error_unchanged (env : Env) (eskiz : Eskiz) (e : GoString)
    (h : (RefreshToken env eskiz).2.result = .ok (some e)) :
    (RefreshToken env eskiz).1 = eskiz := by
  unfold RefreshToken at h ⊢
  cases hl : eskiz.log with
  | none => simp only [hl]
  | some l =>
    simp only [hl] at h ⊢
    cases hh : headerAuth eskiz.Token eskiz.Type_ with
    | error f => simp only [hh]
    | ok kv =>
      obtain ⟨k, v⟩ := kv
      simp only [hh] at h ⊢
      cases hr : (request env (baseURL ++ refreshURL) (str "PATCH") .nil k v).2.err with
      | some e1 => simp only [hr]
      | none =>
        simp only [hr] at h ⊢
        cases hu : env.Unmarshal
            (request env (baseURL ++ refreshURL) (str "PATCH") .nil k v).2.dataMarshal with
        | error e1 => simp only [hu]
        | ok m =>
          simp only [hu] at h ⊢
          exfalso
          split at h
          · simp at h
          · split at h
            · simp at h
            · split at h <;> simp at h

/-- A `RefreshToken` that returns nil has stored the strings "data"."token",
"token_type" and "message" of the decoded response in the session. -/
theorem RefreshToken_success (env : Env) (eskiz : Eskiz)
    (h : (RefreshToken env eskiz).2.result = .ok none) :
    ∃ v m dm, headerAuth eskiz.Token eskiz.Type_ = .ok (str "Authorization", v) ∧
      env.Unmarshal
        (request env (baseURL ++ refreshURL) (str "PATCH") .nil (str "Authorization")
          v).2.dataMarshal = .ok m ∧
      index m (str "data") = .object dm ∧
      index dm (str "token") = .string (RefreshToken env eskiz).1.Token ∧
      index m (str "token_type") = .string (RefreshToken env eskiz).1.Type_ ∧
      index m (str "message") = .string (RefreshToken env eskiz).1.Message := by
  unfold RefreshToken at h ⊢
  cases hl : eskiz.log with
  | none => simp [hl] at h
  | some l =>
    simp only [hl] at h ⊢
    cases hh : headerAuth eskiz.Token eskiz.Type_ with
    | error f => simp [hh] at h
    | ok kv =>
      obtain ⟨k, v⟩ := kv
      have hk := headerAuth_key _ _ _ _ hh
      subst hk
      simp only [hh] at h ⊢
      split at h
      · simp at h
      · rename_i hr
        split at h
        · simp at h
        · rename_i m hu
          split at h
          · cases h
          · rename_i t ht
            split at h
            · cases h
            · rename_i y hy
              split at h
              · cases h
              · rename_i msg hmsg
                obtain ⟨dm, hdm, htok⟩ := (token_chain_ok m t).1 ht
                refine ⟨v, m, dm, rfl, hu, hdm, ?_, ?_, ?_⟩
                · simp only [hr, hu, ht, hy, hmsg]
                  exact htok
                · simp only [hr, hu, ht, hy, hmsg]
                  exact (assertString_ok _ _).1 hy
                · simp only [hr, hu, ht, hy, hmsg]
                  exact (assertString_ok _ _).1 hmsg

/-- C4, evaluated on the session of the scenario and a refresh answered with
status 200 and a body that has "data"."token" and "message" but no
"token_type": the Token is overwritten with the new one, then the call ends
in the panic of a failed interface conversion, returning no error. -/
theorem RefreshToken_missing_type_overwrites_token :
    (RefreshToken (answering 200 noTypeBody [(noTypeBody, noTypeMap)]) sampleSession).1 =
      { Token := str "NEW", Type_ := str "bearer", log := some { NameSpace := str "eskiz" },
        Message := str "ok", Error := [] } ∧
    (RefreshToken (answering 200 noTypeBody [(noTypeBody, noTypeMap)]) sampleSession).2.result =
      .error .interfaceConversion ∧
    (RefreshToken (answering 200 noTypeBody [(noTypeBody, noTypeMap)]) sampleSession).1.Token ≠
      sampleSession.Token := by
  decide

/-! ## Token and token type of a session -/

/-- A session `GetToken` returns with a nil error holds the strings
"data"."token", "token_type" and "message" of the decoded response. -/
theorem GetToken_success (env : Env) (auth : Option Auth) (s : Eskiz)
    (h : (GetToken env auth).result = .ok (s, none)) :
    ∃ m dm,
      env.Unmarshal
        (request env (baseURL ++ loginURL) (str "POST") (.auth auth) [] []).2.dataMarshal =
          .ok m ∧
      index m (str "data") = .object dm ∧
      index dm (str "token") = .string s.Token ∧
      index m (str "token_type") = .string s.Type_ ∧
      index m (str "message") = .string s.Message := by
  unfold GetToken at h
  simp only at h
  cases hr : (request env (baseURL ++ loginURL) (str "POST") (.auth auth) [] []).2.err with
  | some e1 => simp [hr] at h
  | none =>
    simp only [hr] at h
    cases hu : env.Unmarshal
        (request env (baseURL ++ loginURL) (str "POST") (.auth auth) [] []).2.dataMarshal with
    | error e1 => simp [hu] at h
    | ok m =>
      simp only [hu] at h
      split at h
      · simp at h
      · rename_i t ht
        split at h
        · simp at h
        · rename_i y hy
          split at h
          · simp at h
          · rename_i msg hmsg
            obtain ⟨dm, hdm, htok⟩ := (token_chain_ok m t).1 ht
            simp only [Except.ok.injEq, Prod.mk.injEq, and_true] at h
            subst h
            exact ⟨m, dm, rfl, hdm, htok, (assertString_ok _ _).1 hy,
              (assertString_ok _ _).1 hmsg⟩

/-- C8 as stated fails: a login answered with status 200 and the well-formed
body whose "data"."token" is the empty string and whose "token_type" is
"bearer" returns a nil error and a session with an empty Token and the Type
"bearer". -/
theorem GetToken_empty_token_breaks_invariant :
    (GetToken (answering 200 emptyTokenBody [(emptyTokenBody, emptyTokenMap)])
        (some sampleAuth)).result =
      .ok ({ Token := [], Type_ := str "bearer", log := some { NameSpace := str "eskiz" },
             Message := str "ok", Error := [] }, none) ∧
    ¬ tokenTypeInvariant
      { Token := [], Type_ := str "bearer", log := some { NameSpace := str "eskiz" },
        Message := str "ok", Error := [] } := by
  constructor
  · decide
  · unfold tokenTypeInvariant
    decide

/-- C8 as amended: a session `GetToken` returns with an error has Token and
Type both empty; a session it returns with a nil error, and a session after
a `RefreshToken` that returned nil, has as Token and Type the strings
"data"."token" and "token_type" of the decoded response, so it satisfies the
invariant exactly when these two strings do; a `RefreshToken` that returns an
error leaves the session as it was. -/
theorem token_type_follow_response (env : Env) (auth : Option Auth) (eskiz : Eskiz) :
    (∀ s e, (GetToken env auth).result = .ok (s, some e) →
      s.Token = [] ∧ s.Type_ = [] ∧ tokenTypeInvariant s) ∧
    (∀ s, (GetToken env auth).result = .ok (s, none) →
      ∃ m dm t y,
        env.Unmarshal
          (request env (baseURL ++ loginURL) (str "POST") (.auth auth) [] []).2.dataMarshal =
            .ok m ∧
        index m (str "data") = .object dm ∧ index dm (str "token") = .string t ∧
        index m (str "token_type") = .string y ∧ s.Token = t ∧ s.Type_ = y ∧
        (tokenTypeInvariant s ↔ ((t = [] ∧ y = []) ∨ (t ≠ [] ∧ y ≠ [])))) ∧
    (∀ e, (RefreshToken env eskiz).2.result = .ok (some e) →
      (RefreshToken env eskiz).1 = eskiz) ∧
    ((RefreshToken env eskiz).2.result = .ok none →
      ∃ v m dm t y, headerAuth eskiz.Token eskiz.Type_ = .ok (str "Authorization", v) ∧
        env.Unmarshal
          (request env (baseURL ++ refreshURL) (str "PATCH") .nil (str "Authorization")
            v).2.dataMarshal = .ok m ∧
        index m (str "data") = .object dm ∧ index dm (str "token") = .string t ∧
        index m (str "token_type") = .string y ∧
        (RefreshToken env eskiz).1.Token = t ∧ (RefreshToken env eskiz).1.Type_ = y ∧
        (tokenTypeInvariant (RefreshToken env eskiz).1 ↔
          ((t = [] ∧ y = []) ∨ (t ≠ [] ∧ y ≠ [])))) := by
  refine ⟨?_, ?_, ?_, ?_⟩
  · intro s e h
    obtain ⟨h1, h2, _⟩ := GetToken_error_session env auth s e h
    exact ⟨h1, h2, Or.inl ⟨h1, h2⟩⟩
  · intro s h
    obtain ⟨m, dm, hu, hdm, htok, hty, _⟩ := GetToken_success env auth s h
    exact ⟨m, dm, s.Token, s.Type_, hu, hdm, htok, hty, rfl, rfl, Iff.rfl⟩
  · intro e h
    exact RefreshToken_error_unchanged env eskiz e h
  · intro h
    obtain ⟨v, m, dm, hh, hu, hdm, htok, hty, _⟩ := RefreshToken_success env eskiz h
    exact ⟨v, m, dm, _, _, hh, hu, hdm, htok, hty, rfl, rfl, Iff.rfl⟩

/-- C8 as amended, at a login answered with 401 and at a refresh of the
session of the scenario answered with 401: the failed login gives an empty
Token and Type, the failed refresh leaves the session as it was. -/
theorem token_type_follow_response_witness :
    (failedSession.Token = [] ∧ failedSession.Type_ = [] ∧ tokenTypeInvariant failedSession) ∧
    (RefreshToken (answering 401 (str "no") []) sampleSession).1 = sampleSession :=
  ⟨(token_type_follow_response (answering 401 (str "no") []) (some sampleAuth)
      sampleSession).1 failedSession (str "unauthorized") (by decide),
   (token_type_follow_response (answering 401 (str "no") []) (some sampleAuth)
      sampleSession).2.2.1 (str "unauthorized") (by decide)⟩

end Eskizuz
